import Mathlib

/-!
Shallow embedding of the d1-orm statement synthesizer (`src/queryBuilder.ts`)
and the model/schema validator (`Model` class, historical `model.ts` revision
kept as `src/unnamed/part_005`), together with proofs settling the frozen
claims about them.

Conventions of the embedding:
* JavaScript objects used as ordered key/value mappings (`where`, `data`,
  `upsertOnlyUpdateData`, `columns`) are embedded as association lists;
  `Object.entries`/`Object.keys`/`Object.values` iteration order is the list
  order.  JavaScript object keys are unique, so theorems that need it take a
  `Nodup` hypothesis on the key list.
* JavaScript truthiness is modelled explicitly where the source relies on it:
  a number is truthy iff nonzero, a string iff nonempty, `undefined` (here
  `Option.none`) is falsy, and objects/arrays are always truthy.
* Fallible code returns `Except String`, the error string being the `Error`
  message thrown by the source.
-/

namespace D1Orm

/-- JavaScript runtime values that can appear as column values or bindings. -/
inductive JSValue where
  | vNull : JSValue
  | vBool : Bool → JSValue
  | vInt : Int → JSValue
  | vStr : String → JSValue
deriving DecidableEq, Repr

/-- JavaScript template-literal coercion of a value to a string. -/
def jsToString : JSValue → String
  | .vNull => "null"
  | .vBool true => "true"
  | .vBool false => "false"
  | .vInt n => toString n
  | .vStr s => s

/-- Modelled from the JavaScript runtime: `JSON.stringify` on the values of
`JSValue` (string escaping is elided, which no theorem depends on). -/
def jsonStringify : JSValue → String
  | .vNull => "null"
  | .vBool true => "true"
  | .vBool false => "false"
  | .vInt n => toString n
  | .vStr s => "\"" ++ s ++ "\""

/-- `Array.prototype.join(sep)` on a list of strings. -/
def joinSep (sep : String) : List String → String
  | [] => ""
  | [x] => x
  | x :: y :: xs => x ++ sep ++ joinSep sep (y :: xs)

/-- JavaScript truthiness of an optional number (`0` and `undefined` are falsy). -/
def truthyNat : Option Nat → Bool
  | none => false
  | some n => n != 0

/-- JavaScript truthiness of an optional string (`""` and `undefined` are falsy). -/
def truthyOptStr : Option String → Bool
  | none => false
  | some s => s != ""

/-- Canonical column types after alias resolution (the string values of the
`DataTypes` enum). -/
inductive DataTypes where
  | integer : DataTypes
  | text : DataTypes
  | real : DataTypes
  | blob : DataTypes
  | boolean : DataTypes
deriving DecidableEq, Repr

/-- The string value a `DataTypes` member interpolates as. -/
def DataTypes.render : DataTypes → String
  | .integer => "integer"
  | .text => "text"
  | .real => "real"
  | .blob => "blob"
  | .boolean => "boolean"

/-- A column descriptor (`ModelColumn`).  `json` is the flag read by
`GenerateQuery` via `column?.json`; `defaultValue = none` models the field
being `undefined`. -/
structure ModelColumn where
  type : DataTypes
  notNull : Bool := false
  defaultValue : Option JSValue := none
  json : Bool := false
deriving DecidableEq, Repr

/-- An order-by entry: either a bare column name or an object spec
(`nullLast` is optional in the source type, hence `Option Bool`). -/
inductive OrderByItem where
  | col : String → OrderByItem
  | spec : (column : String) → (descending : Bool) → (nullLast : Option Bool) → OrderByItem
deriving DecidableEq, Repr

/-- The `orderBy` argument: a single entry or an array of entries. -/
inductive OrderByArg where
  | one : OrderByItem → OrderByArg
  | many : List OrderByItem → OrderByArg
deriving DecidableEq, Repr

/-- `transformOrderBy` on a single entry (the non-array branches of the
source function): a bare name renders double-quoted, an object spec appends
` DESC` when `descending` is truthy and ` NULLS LAST` when `nullLast` is
truthy. -/
def transformOrderByItem : OrderByItem → String
  | .col s => "\"" ++ s ++ "\""
  | .spec c d nl =>
      "\"" ++ c ++ "\"" ++ (if d then " DESC" else "")
        ++ (if nl = some true then " NULLS LAST" else "")

/-- `transformOrderBy` (`src/queryBuilder.ts` lines 203-221): arrays map the
single-entry rendering over their elements and comma-join the results. -/
def transformOrderBy : OrderByArg → String
  | .one o => transformOrderByItem o
  | .many l => joinSep ", " (l.map transformOrderByItem)

/-- JavaScript truthiness of the `orderBy` option: objects and arrays are
truthy, a bare column name is a string and hence falsy iff empty. -/
def truthyOrderByArg : OrderByArg → Bool
  | .one (.col s) => s != ""
  | .one (.spec _ _ _) => true
  | .many _ => true

/-- The clause bundle `GenerateQueryOptions` (all fields optional; `where` is
a reserved word in Lean, hence `where_`). -/
structure GenerateQueryOptions where
  where_ : Option (List (String × JSValue)) := none
  limit : Option Nat := none
  offset : Option Nat := none
  orderBy : Option OrderByArg := none
  data : Option (List (String × JSValue)) := none
  upsertOnlyUpdateData : Option (List (String × JSValue)) := none
  columns : Option (List (String × ModelColumn)) := none
deriving DecidableEq, Repr

/-- The `primaryKeys` parameter of `GenerateQuery`: `string | string[]`. -/
inductive PrimaryKeysArg where
  | single : String → PrimaryKeysArg
  | multiple : List String → PrimaryKeysArg
deriving DecidableEq, Repr

/-- `Array.isArray(primaryKeys) ? primaryKeys.join(", ") : primaryKeys`. -/
def primaryKeyString : PrimaryKeysArg → String
  | .multiple l => joinSep ", " l
  | .single s => s

/-- The `{ query, bindings }` result of `GenerateQuery`. -/
structure GeneratedStatement where
  query : String
  bindings : List JSValue
deriving DecidableEq, Repr

/-- The ` WHERE ...` segment built by the select/delete/update branches: an
empty or absent `where` object contributes nothing (the `whereStmt.length`
guard), otherwise the equality predicates are joined with ` AND `. -/
def whereSegment : Option (List (String × JSValue)) → String
  | none => ""
  | some w =>
      if w.isEmpty then ""
      else " WHERE " ++ joinSep " AND " (w.map (fun kv => kv.1 ++ " = ?"))

/-- The bindings contributed by the `where` loop (pushed per entry). -/
def whereBindings : Option (List (String × JSValue)) → List JSValue
  | none => []
  | some w => w.map Prod.snd

/-- The ` ORDER BY ...` segment of the select branch (`if (options.orderBy)`). -/
def orderBySegment : Option OrderByArg → String
  | none => ""
  | some ob => if truthyOrderByArg ob then " ORDER BY " ++ transformOrderBy ob else ""

/-- The ` LIMIT <n>[ OFFSET <m>]` segment of the select branch: `OFFSET` is
emitted only inside the truthy-`limit` branch, and both use JavaScript number
truthiness. -/
def limitOffsetSegment (limit offset : Option Nat) : String :=
  match limit with
  | none => ""
  | some l =>
      if l != 0 then
        " LIMIT " ++ toString l ++
          (match offset with
           | none => ""
           | some o => if o != 0 then " OFFSET " ++ toString o else "")
      else ""

/-- `options.columns?.[key]`. -/
def columnLookup (cols : Option (List (String × ModelColumn))) (k : String) :
    Option ModelColumn :=
  match cols with
  | none => none
  | some cs => cs.lookup k

/-- The placeholder text one `data` entry contributes in the insert branch:
`json(?)` when the column descriptor has a truthy `json` flag, else `?`. -/
def insertEntryValue (cols : Option (List (String × ModelColumn))) (kv : String × JSValue) :
    String :=
  match columnLookup cols kv.1 with
  | some c => if c.json then "json(?)" else "?"
  | none => "?"

/-- The binding one `data` entry contributes in the insert branch:
`JSON.stringify(value)` for a json column, the raw value otherwise. -/
def insertEntryBinding (cols : Option (List (String × ModelColumn))) (kv : String × JSValue) :
    JSValue :=
  match columnLookup cols kv.1 with
  | some c => if c.json then .vStr (jsonStringify kv.2) else kv.2
  | none => kv.2

/-- `GenerateQuery` (`src/queryBuilder.ts` lines 63-197).  The statement kind
is the string value of the `QueryType` enum member, matching the JavaScript
`switch` on a string-valued enum (an unrecognized kind falls through to the
default branch).  The `typeof tableName !== "string"` half of the table-name
check is untranslatable in a typed embedding; `!tableName.length` remains. -/
def GenerateQuery (type : String) (tableName : String) (options : GenerateQueryOptions)
    (primaryKeys : PrimaryKeysArg) : Except String GeneratedStatement :=
  if tableName = "" then .error "Invalid table name"
  else if type = "SELECT" then
    .ok { query := "SELECT * FROM `" ++ tableName ++ "`"
            ++ whereSegment options.where_
            ++ orderBySegment options.orderBy
            ++ limitOffsetSegment options.limit options.offset,
          bindings := whereBindings options.where_ }
  else if type = "DELETE" then
    .ok { query := "DELETE FROM `" ++ tableName ++ "`" ++ whereSegment options.where_,
          bindings := whereBindings options.where_ }
  else if type = "INSERT" ∨ type = "INSERT or REPLACE" then
    match options.data with
    | none => .error "Must provide data to insert"
    | some d =>
        if d.isEmpty then .error "Must provide data to insert"
        else
          .ok { query := type ++ " INTO `" ++ tableName ++ "`"
                  ++ " (" ++ joinSep ", " (d.map Prod.fst) ++ ")"
                  ++ " VALUES (" ++ joinSep ", " (d.map (insertEntryValue options.columns)) ++ ")",
                bindings := d.map (insertEntryBinding options.columns) }
  else if type = "UPDATE" then
    match options.data with
    | none => .error "Must provide data to update"
    | some d =>
        if d.isEmpty then .error "Must provide data to update"
        else
          .ok { query := "UPDATE `" ++ tableName ++ "`"
                  ++ " SET " ++ joinSep ", " (d.map (fun kv => kv.1 ++ " = ?"))
                  ++ whereSegment options.where_,
                bindings := d.map Prod.snd ++ whereBindings options.where_ }
  else if type = "UPSERT" then
    let d := options.data.getD []
    let u := options.upsertOnlyUpdateData.getD []
    let w := options.where_.getD []
    if d.isEmpty ∨ u.isEmpty ∨ w.isEmpty then
      .error "Must provide data to insert with, data to update with, and where keys in Upsert"
    else
      .ok { query := "INSERT INTO `" ++ tableName ++ "` (" ++ joinSep ", " (d.map Prod.fst) ++ ")"
              ++ " VALUES (" ++ joinSep ", " (List.replicate d.length "?") ++ ")"
              ++ " ON CONFLICT (" ++ primaryKeyString primaryKeys ++ ") DO UPDATE SET"
              ++ " " ++ joinSep ", " (u.map (fun kv => kv.1 ++ " = ?"))
              ++ " WHERE " ++ joinSep " AND " (w.map (fun kv => kv.1 ++ " = ?")),
            bindings := d.map Prod.snd ++ u.map Prod.snd ++ w.map Prod.snd }
  else .error "Invalid QueryType provided"

/-- The TypeScript signature defaults `primaryKeys` to `"id"`. -/
def GenerateQueryDefaultPK (type tableName : String) (options : GenerateQueryOptions) :
    Except String GeneratedStatement :=
  GenerateQuery type tableName options (.single "id")

example :
    GenerateQuery "SELECT" "t"
      { where_ := some [("a", .vInt 1), ("b", .vStr "x")] } (.single "id") =
    .ok { query := "SELECT * FROM `t` WHERE a = ? AND b = ?",
          bindings := [.vInt 1, .vStr "x"] } := by rfl

example :
    GenerateQuery "INSERT" "t"
      { data := some [("id", .vInt 1), ("name", .vStr "x")] } (.single "id") =
    .ok { query := "INSERT INTO `t` (id, name) VALUES (?, ?)",
          bindings := [.vInt 1, .vStr "x"] } := by rfl

example :
    GenerateQuery "UPSERT" "t"
      { where_ := some [("id", .vInt 1)],
        data := some [("id", .vInt 1), ("name", .vStr "x")],
        upsertOnlyUpdateData := some [("name", .vStr "x")] } (.single "id") =
    .ok { query := "INSERT INTO `t` (id, name) VALUES (?, ?) ON CONFLICT (id) DO UPDATE SET name = ? WHERE id = ?",
          bindings := [.vInt 1, .vStr "x", .vStr "x", .vInt 1] } := by rfl

/-- JavaScript truthiness of `arr.find(p)` on an array of strings: the call
evaluates to the first matching element (truthy iff that string is nonempty)
or `undefined` (falsy).  In particular a found empty string is falsy. -/
def jsFindTruthy (p : String → Bool) (l : List String) : Bool :=
  match l.find? p with
  | none => false
  | some x => x != ""

/-- `Array.isArray(options.primaryKeys) ? options.primaryKeys
: [options.primaryKeys].filter(Boolean)` — a single falsy (empty) string is
filtered out. -/
def normalizePrimaryKeys : PrimaryKeysArg → List String
  | .multiple l => l
  | .single s => if s != "" then [s] else []

/-- The options object of the `Model` constructor.  `d1ormValid` models
whether `options.D1Orm` passes the `instanceof D1Orm`/`isDatabase` check (the
database handle itself is an external capability, out of scope);
`uniqueKeys = none` models the field being `undefined` (the source applies
`options.uniqueKeys || []`). -/
structure ModelOptions where
  d1ormValid : Bool := true
  tableName : String
  primaryKeys : PrimaryKeysArg
  autoIncrement : Option String := none
  uniqueKeys : Option (List (List String)) := none
deriving DecidableEq, Repr

/-- The validated state a successfully constructed `Model` carries. -/
structure ModelState where
  tableName : String
  columns : List (String × ModelColumn)
  primaryKeys : List String
  autoIncrementColumn : Option String
  uniqueKeys : List (List String)
deriving DecidableEq, Repr

/-- The `Model` constructor (`src/unnamed/part_005` lines 18-90): field
assignment followed by the validation chain, each failing check throwing.
JavaScript artifacts modelled faithfully:
* the `typeof x !== "string"` disjuncts never fire in a typed embedding;
* `primaryKeys.find((x) => ... || !x.length)` returns the offending string
  itself, and an empty string is falsy, so that check only fires on an empty
  list (`jsFindTruthy`); likewise for the `!(x in columns)` check, whose
  found element is the key string;
* `if (this.#autoIncrementColumn)` is string truthiness, so an empty-string
  `autoIncrement` skips the auto-increment validation entirely. -/
def modelConstructor (options : ModelOptions) (columns : List (String × ModelColumn)) :
    Except String ModelState :=
  let pks := normalizePrimaryKeys options.primaryKeys
  let state : ModelState :=
    { tableName := options.tableName, columns := columns, primaryKeys := pks,
      autoIncrementColumn := options.autoIncrement,
      uniqueKeys := options.uniqueKeys.getD [] }
  if options.d1ormValid = false then
    .error "Options.D1Orm is not an instance of D1Orm"
  else if options.tableName = "" then
    .error "Options.tableName must be a string"
  else if pks.isEmpty ∨ jsFindTruthy (fun x => x.isEmpty) pks then
    .error "Options.primaryKeys must be a string or an array of strings"
  else if columns.isEmpty then
    .error "Model columns cannot be empty"
  else if jsFindTruthy (fun x => (columns.lookup x).isNone) pks then
    .error "Options.primaryKeys includes a column that does not exist"
  else
    match options.autoIncrement with
    | none => .ok state
    | some a =>
        if a = "" then .ok state
        else if pks.contains a = false then
          .error "Options.autoIncrement was provided, but was not a primary key"
        else if pks.length > 1 then
          .error "Options.autoIncrement was provided, but there are multiple primary keys"
        else
          match columns.lookup a with
          | none => .error "Options.autoIncrement was provided, but is not a column"
          | some c =>
              if c.type ≠ DataTypes.integer then
                .error "Options.autoIncrement was provided, but is not an integer column"
              else .ok state

/-- The `DEFAULT` literal: `${defaultValue}` first, replaced by a
double-quoted form when `typeof defaultValue === "string"`. -/
def defaultValueLiteral : JSValue → String
  | .vStr s => "\"" ++ s ++ "\""
  | v => jsToString v

/-- One column's definition inside `createTableDefinition`
(`src/unnamed/part_005` lines 103-119): name and type, then
` PRIMARY KEY AUTOINCREMENT` iff the name strictly equals the auto-increment
column, ` NOT NULL` iff `notNull`, ` DEFAULT <literal>` iff a default value is
present (`!== undefined`). -/
def columnDefinitionEntry (autoInc : Option String) (columnName : String)
    (column : ModelColumn) : String :=
  columnName ++ " " ++ column.type.render
    ++ (if autoInc = some columnName then " PRIMARY KEY AUTOINCREMENT" else "")
    ++ (if column.notNull then " NOT NULL" else "")
    ++ (match column.defaultValue with
        | none => ""
        | some v => " DEFAULT " ++ defaultValueLiteral v)

/-- The pieces array `columnDefinition` of `createTableDefinition`: the
per-column definitions, then a trailing `PRIMARY KEY (...)` pushed iff the
auto-increment column is falsy (`if (!this.#autoIncrementColumn)`), then one
`UNIQUE (...)` per unique-key group in declaration order. -/
def createTableDefinitionPieces (m : ModelState) : List String :=
  (m.columns.map fun kv => columnDefinitionEntry m.autoIncrementColumn kv.1 kv.2)
    ++ (if truthyOptStr m.autoIncrementColumn then []
        else ["PRIMARY KEY (" ++ joinSep ", " m.primaryKeys ++ ")"])
    ++ (m.uniqueKeys.map fun g => "UNIQUE (" ++ joinSep ", " g ++ ")")

/-- `createTableDefinition` (`src/unnamed/part_005` lines 101-129). -/
def createTableDefinition (m : ModelState) : String :=
  "CREATE TABLE `" ++ m.tableName ++ "` ("
    ++ joinSep ", " (createTableDefinitionPieces m) ++ ");"

/-- The statement generated by `Model.Upsert` (`src/unnamed/part_005` lines
276-292): it always forwards the validated `this.primaryKeys` array as the
conflict target (execution against the database handle is out of scope). -/
def modelUpsertStatement (m : ModelState) (options : GenerateQueryOptions) :
    Except String GeneratedStatement :=
  GenerateQuery "UPSERT" m.tableName options (.multiple m.primaryKeys)

/-- How many `PRIMARY KEY` clauses `createTableDefinitionPieces` emits: one
per column piece that received the inline ` PRIMARY KEY AUTOINCREMENT` suffix
(emitted iff the equality test in `columnDefinitionEntry` fires), plus the
trailing `PRIMARY KEY (...)` piece when it is pushed. -/
def pkClauseCount (m : ModelState) : Nat :=
  (m.columns.countP fun kv => m.autoIncrementColumn = some kv.1)
    + (if truthyOptStr m.autoIncrementColumn then 0 else 1)

/-- Number of `?` characters in a string. -/
def countQ (s : String) : Nat := s.data.count '?'

theorem countQ_append (a b : String) : countQ (a ++ b) = countQ a + countQ b := by
  simp [countQ, String.data_append, List.count_append]

theorem digitChar_ne_q : ∀ n : Nat, Nat.digitChar n ≠ '?'
  | 0 => by decide
  | 1 => by decide
  | 2 => by decide
  | 3 => by decide
  | 4 => by decide
  | 5 => by decide
  | 6 => by decide
  | 7 => by decide
  | 8 => by decide
  | 9 => by decide
  | 10 => by decide
  | 11 => by decide
  | 12 => by decide
  | 13 => by decide
  | 14 => by decide
  | 15 => by decide
  | (n + 16) => by
      unfold Nat.digitChar
      repeat rw [if_neg (by omega)]
      decide

theorem mem_toDigitsCore (b f : Nat) :
    ∀ (n : Nat) (acc : List Char) (c : Char),
      c ∈ Nat.toDigitsCore b f n acc → c ∈ acc ∨ ∃ m, c = Nat.digitChar m := by
  induction f with
  | zero =>
    intro n acc c h
    exact .inl h
  | succ f ih =>
    intro n acc c h
    simp only [Nat.toDigitsCore] at h
    split at h
    · rcases List.mem_cons.mp h with h1 | h1
      · exact .inr ⟨n % b, h1⟩
      · exact .inl h1
    · rcases ih _ _ _ h with h1 | h1
      · rcases List.mem_cons.mp h1 with h2 | h2
        · exact .inr ⟨n % b, h2⟩
        · exact .inl h2
      · exact .inr h1

/-- The decimal rendering of a natural number contains no `?`. -/
theorem countQ_natToString (n : Nat) : countQ (toString n) = 0 := by
  simp only [countQ, Nat.repr]
  rw [List.count_eq_zero]
  intro hmem
  rcases mem_toDigitsCore 10 (n + 1) n [] '?' (by simpa [String.data] using hmem) with h | ⟨m, hm⟩
  · simp at h
  · exact digitChar_ne_q m hm.symm

/-- A generated query, split into the literal text fragments and the `?`
placeholders the synthesizer emits; a placeholder carries the bound value
that belongs to it.  Rendering a parts list left-to-right and collecting the
placeholder values left-to-right recovers the query string and the bindings
array, which is the formal sense in which `bindings[i]` corresponds to the
i-th emitted placeholder. -/
inductive QPart where
  | lit : String → QPart
  | hole : JSValue → QPart
deriving DecidableEq, Repr

/-- Concatenate a parts list into query text, each placeholder printing as `?`. -/
def renderParts : List QPart → String
  | [] => ""
  | .lit s :: ps => s ++ renderParts ps
  | .hole _ :: ps => "?" ++ renderParts ps

/-- The placeholder values of a parts list, left-to-right. -/
def partValues (ps : List QPart) : List JSValue :=
  ps.filterMap fun p => match p with | .lit _ => none | .hole v => some v

/-- `Array.prototype.join` at the parts level. -/
def joinPartsSep (sep : List QPart) : List (List QPart) → List QPart
  | [] => []
  | [x] => x
  | x :: y :: xs => x ++ sep ++ joinPartsSep sep (y :: xs)

/-- The parts of one `<key> = ?` equality predicate. -/
def eqPredParts (kv : String × JSValue) : List QPart :=
  [.lit kv.1, .lit " = ", .hole kv.2]

/-- Parts-level `whereSegment`. -/
def whereSegmentParts : Option (List (String × JSValue)) → List QPart
  | none => []
  | some w =>
      if w.isEmpty then []
      else .lit " WHERE " :: joinPartsSep [.lit " AND "] (w.map eqPredParts)

/-- Parts-level `insertEntryValue`: the placeholder of a json column sits
between the `json(` and `)` literals, and carries the stringified value. -/
def insertEntryParts (cols : Option (List (String × ModelColumn))) (kv : String × JSValue) :
    List QPart :=
  match columnLookup cols kv.1 with
  | some c =>
      if c.json then [.lit "json(", .hole (.vStr (jsonStringify kv.2)), .lit ")"]
      else [.hole kv.2]
  | none => [.hole kv.2]

/-- Parts-level `GenerateQuery`: the same guards and branch structure, with
every emitted `?` recorded as a placeholder carrying the value pushed onto
`bindings` at the same point of the source. -/
def GenerateQueryParts (type : String) (tableName : String) (options : GenerateQueryOptions)
    (primaryKeys : PrimaryKeysArg) : Except String (List QPart) :=
  if tableName = "" then .error "Invalid table name"
  else if type = "SELECT" then
    .ok ([QPart.lit ("SELECT * FROM `" ++ tableName ++ "`")]
      ++ whereSegmentParts options.where_
      ++ [QPart.lit (orderBySegment options.orderBy),
          QPart.lit (limitOffsetSegment options.limit options.offset)])
  else if type = "DELETE" then
    .ok ([QPart.lit ("DELETE FROM `" ++ tableName ++ "`")] ++ whereSegmentParts options.where_)
  else if type = "INSERT" ∨ type = "INSERT or REPLACE" then
    match options.data with
    | none => .error "Must provide data to insert"
    | some d =>
        if d.isEmpty then .error "Must provide data to insert"
        else
          .ok ([QPart.lit (type ++ " INTO `" ++ tableName ++ "`"
                  ++ " (" ++ joinSep ", " (d.map Prod.fst) ++ ")" ++ " VALUES (")]
            ++ joinPartsSep [.lit ", "] (d.map (insertEntryParts options.columns))
            ++ [QPart.lit ")"])
  else if type = "UPDATE" then
    match options.data with
    | none => .error "Must provide data to update"
    | some d =>
        if d.isEmpty then .error "Must provide data to update"
        else
          .ok ([QPart.lit ("UPDATE `" ++ tableName ++ "`" ++ " SET ")]
            ++ joinPartsSep [.lit ", "] (d.map eqPredParts)
            ++ whereSegmentParts options.where_)
  else if type = "UPSERT" then
    let d := options.data.getD []
    let u := options.upsertOnlyUpdateData.getD []
    let w := options.where_.getD []
    if d.isEmpty ∨ u.isEmpty ∨ w.isEmpty then
      .error "Must provide data to insert with, data to update with, and where keys in Upsert"
    else
      .ok ([QPart.lit ("INSERT INTO `" ++ tableName ++ "` ("
              ++ joinSep ", " (d.map Prod.fst) ++ ")" ++ " VALUES (")]
        ++ joinPartsSep [.lit ", "] (d.map fun kv => [QPart.hole kv.2])
        ++ [QPart.lit (") ON CONFLICT (" ++ primaryKeyString primaryKeys ++ ") DO UPDATE SET ")]
        ++ joinPartsSep [.lit ", "] (u.map eqPredParts)
        ++ [QPart.lit " WHERE "]
        ++ joinPartsSep [.lit " AND "] (w.map eqPredParts))
  else .error "Invalid QueryType provided"

theorem renderParts_append (a b : List QPart) :
    renderParts (a ++ b) = renderParts a ++ renderParts b := by
  induction a with
  | nil => simp [renderParts, String.empty_append]
  | cons p ps ih => cases p <;> simp [renderParts, ih, String.append_assoc]

theorem partValues_append (a b : List QPart) :
    partValues (a ++ b) = partValues a ++ partValues b := by
  simp [partValues, List.filterMap_append]

theorem renderParts_joinPartsSep (sep : List QPart) (l : List (List QPart)) :
    renderParts (joinPartsSep sep l) = joinSep (renderParts sep) (l.map renderParts) := by
  induction l with
  | nil => rfl
  | cons x xs ih =>
    cases xs with
    | nil => rfl
    | cons y ys => simp only [joinPartsSep, joinSep, List.map, renderParts_append, ih]

theorem partValues_joinPartsSep (sep : List QPart) (h : partValues sep = [])
    (l : List (List QPart)) :
    partValues (joinPartsSep sep l) = (l.map partValues).flatten := by
  induction l with
  | nil => rfl
  | cons x xs ih =>
    cases xs with
    | nil => simp [joinPartsSep, List.flatten]
    | cons y ys => simp [joinPartsSep, partValues_append, h, ih, List.flatten]

/-- All literal fragments of a parts list are `?`-free. -/
def litsQFree (ps : List QPart) : Prop :=
  ∀ s : String, QPart.lit s ∈ ps → countQ s = 0

theorem countQ_renderParts (ps : List QPart) (h : litsQFree ps) :
    countQ (renderParts ps) = (partValues ps).length := by
  induction ps with
  | nil => rfl
  | cons p ps ih =>
    have hps : litsQFree ps := fun t ht => h t (List.mem_cons_of_mem _ ht)
    cases p with
    | lit s =>
      have hs : countQ s = 0 := h s (List.mem_cons_self _ _)
      simp [renderParts, partValues, countQ_append, hs, ih hps]
    | hole v =>
      have h1 : countQ "?" = 1 := by decide
      simp [renderParts, partValues, countQ_append, ih hps, h1, Nat.add_comm]

theorem litsQFree_append {a b : List QPart} (ha : litsQFree a) (hb : litsQFree b) :
    litsQFree (a ++ b) := by
  intro s hs
  rcases List.mem_append.mp hs with h | h
  exacts [ha s h, hb s h]

theorem litsQFree_joinPartsSep {sep : List QPart} (hsep : litsQFree sep)
    {l : List (List QPart)} (hl : ∀ x ∈ l, litsQFree x) :
    litsQFree (joinPartsSep sep l) := by
  induction l with
  | nil => intro s hs; simp [joinPartsSep] at hs
  | cons x xs ih =>
    cases xs with
    | nil => exact hl x (by simp)
    | cons y ys =>
      simp only [joinPartsSep]
      exact litsQFree_append (litsQFree_append (hl x (by simp))  hsep)
        (ih (fun z hz => hl z (List.mem_cons_of_mem _ hz)))

@[simp] theorem renderParts_nil : renderParts [] = "" := rfl

@[simp] theorem renderParts_cons_lit (s : String) (ps : List QPart) :
    renderParts (.lit s :: ps) = s ++ renderParts ps := rfl

@[simp] theorem renderParts_cons_hole (v : JSValue) (ps : List QPart) :
    renderParts (.hole v :: ps) = "?" ++ renderParts ps := rfl

@[simp] theorem partValues_nil : partValues [] = [] := rfl

@[simp] theorem partValues_cons_lit (s : String) (ps : List QPart) :
    partValues (.lit s :: ps) = partValues ps := rfl

@[simp] theorem partValues_cons_hole (v : JSValue) (ps : List QPart) :
    partValues (.hole v :: ps) = v :: partValues ps := rfl

theorem flatten_map_singleton {α β : Type} (l : List α) (f : α → β) :
    (l.map (fun x => [f x])).flatten = l.map f := by
  induction l <;> simp [*]

theorem map_const_q (d : List (String × JSValue)) :
    d.map (fun _ => ("?" : String)) = List.replicate d.length "?" := by
  induction d <;> simp [*, List.replicate]

theorem renderParts_eqPredParts (kv : String × JSValue) :
    renderParts (eqPredParts kv) = kv.1 ++ " = ?" := rfl

theorem partValues_eqPredParts (kv : String × JSValue) :
    partValues (eqPredParts kv) = [kv.2] := rfl

theorem renderParts_join_lit (s : String) (l : List (List QPart)) :
    renderParts (joinPartsSep [QPart.lit s] l) = joinSep s (l.map renderParts) := by
  rw [renderParts_joinPartsSep]
  congr 1
  simp [String.append_empty]

theorem partValues_join_lit (s : String) (l : List (List QPart)) :
    partValues (joinPartsSep [QPart.lit s] l) = (l.map partValues).flatten :=
  partValues_joinPartsSep [QPart.lit s] rfl l

theorem map_render_eqPred (l : List (String × JSValue)) :
    List.map (renderParts ∘ eqPredParts) l = l.map (fun kv => kv.1 ++ " = ?") := by
  induction l <;> simp_all [Function.comp, renderParts_eqPredParts]

theorem flatten_values_eqPred (l : List (String × JSValue)) :
    (List.map (partValues ∘ eqPredParts) l).flatten = l.map Prod.snd := by
  induction l <;> simp_all [Function.comp, partValues_eqPredParts]

theorem renderParts_whereSegmentParts (w : Option (List (String × JSValue))) :
    renderParts (whereSegmentParts w) = whereSegment w := by
  cases w with
  | none => rfl
  | some l =>
    by_cases h : l.isEmpty
    · simp [whereSegmentParts, whereSegment, h]
    · simp [whereSegmentParts, whereSegment, h, renderParts_join_lit, map_render_eqPred]

theorem partValues_whereSegmentParts (w : Option (List (String × JSValue))) :
    partValues (whereSegmentParts w) = whereBindings w := by
  cases w with
  | none => rfl
  | some l =>
    by_cases h : l.isEmpty
    · rw [List.isEmpty_iff] at h
      simp [whereSegmentParts, whereSegment, h, whereBindings]
    · simp [whereSegmentParts, whereBindings, h, partValues_join_lit,
        flatten_values_eqPred]

theorem renderParts_insertEntryParts (cols : Option (List (String × ModelColumn)))
    (kv : String × JSValue) :
    renderParts (insertEntryParts cols kv) = insertEntryValue cols kv := by
  unfold insertEntryParts insertEntryValue
  cases columnLookup cols kv.1 with
  | none => rfl
  | some c => by_cases h : c.json <;> simp [h]

theorem partValues_insertEntryParts (cols : Option (List (String × ModelColumn)))
    (kv : String × JSValue) :
    partValues (insertEntryParts cols kv) = [insertEntryBinding cols kv] := by
  unfold insertEntryParts insertEntryBinding
  cases columnLookup cols kv.1 with
  | none => rfl
  | some c => by_cases h : c.json <;> simp [h]

theorem map_render_insertEntry (cols : Option (List (String × ModelColumn)))
    (l : List (String × JSValue)) :
    List.map (renderParts ∘ insertEntryParts cols) l = l.map (insertEntryValue cols) := by
  induction l <;> simp_all [Function.comp, renderParts_insertEntryParts]

theorem flatten_values_insertEntry (cols : Option (List (String × ModelColumn)))
    (l : List (String × JSValue)) :
    (List.map (partValues ∘ insertEntryParts cols) l).flatten
      = l.map (insertEntryBinding cols) := by
  induction l <;> simp_all [Function.comp, partValues_insertEntryParts]

theorem map_render_holeFrag (l : List (String × JSValue)) :
    List.map (renderParts ∘ fun kv : String × JSValue => [QPart.hole kv.2]) l
      = List.replicate l.length "?" := by
  induction l <;> simp_all [Function.comp, List.replicate, String.append_empty]

theorem flatten_values_holeFrag (l : List (String × JSValue)) :
    (List.map (partValues ∘ fun kv : String × JSValue => [QPart.hole kv.2]) l).flatten
      = l.map Prod.snd := by
  induction l <;> simp_all [Function.comp]

/-- The parts-level generator agrees with `GenerateQuery`: rendering the
parts gives exactly the query string, and collecting the placeholder values
left-to-right gives exactly the bindings array. -/
theorem GenerateQueryParts_spec (type tableName : String) (options : GenerateQueryOptions)
    (pk : PrimaryKeysArg) :
    (GenerateQueryParts type tableName options pk).map
      (fun ps => GeneratedStatement.mk (renderParts ps) (partValues ps))
      = GenerateQuery type tableName options pk := by
  unfold GenerateQuery GenerateQueryParts
  by_cases h0 : tableName = ""
  · simp [h0, Except.map]
  rw [if_neg h0, if_neg h0]
  by_cases hS : type = "SELECT"
  · rw [if_pos hS, if_pos hS]
    simp [Except.map, GeneratedStatement.mk.injEq, renderParts_append,
      partValues_append, renderParts_whereSegmentParts,
      partValues_whereSegmentParts, String.append_assoc, String.append_empty]
  rw [if_neg hS, if_neg hS]
  by_cases hD : type = "DELETE"
  · rw [if_pos hD, if_pos hD]
    simp [Except.map, GeneratedStatement.mk.injEq, renderParts_append,
      partValues_append, renderParts_whereSegmentParts,
      partValues_whereSegmentParts, String.append_assoc, String.append_empty]
  rw [if_neg hD, if_neg hD]
  by_cases hI : type = "INSERT" ∨ type = "INSERT or REPLACE"
  · rw [if_pos hI, if_pos hI]
    cases hd : options.data with
    | none => rfl
    | some d =>
      by_cases he : d.isEmpty
      · simp [he, Except.map]
      · simp [he, Except.map, GeneratedStatement.mk.injEq, renderParts_append,
          partValues_append, renderParts_join_lit, partValues_join_lit,
          map_render_insertEntry, flatten_values_insertEntry,
          String.append_assoc, String.append_empty]
  rw [if_neg hI, if_neg hI]
  by_cases hU : type = "UPDATE"
  · rw [if_pos hU, if_pos hU]
    cases hd : options.data with
    | none => rfl
    | some d =>
      by_cases he : d.isEmpty
      · simp [he, Except.map]
      · simp [he, Except.map, GeneratedStatement.mk.injEq, renderParts_append,
          partValues_append, renderParts_join_lit, partValues_join_lit,
          map_render_eqPred, flatten_values_eqPred,
          renderParts_whereSegmentParts, partValues_whereSegmentParts,
          String.append_assoc, String.append_empty]
  rw [if_neg hU, if_neg hU]
  by_cases hP : type = "UPSERT"
  · rw [if_pos hP, if_pos hP]
    by_cases he : options.data.getD [] = [] ∨
        options.upsertOnlyUpdateData.getD [] = [] ∨
        options.where_.getD [] = []
    · simp [he, Except.map]
    · simp [he, Except.map, GeneratedStatement.mk.injEq, renderParts_append,
        partValues_append, renderParts_join_lit, partValues_join_lit,
        map_render_eqPred, flatten_values_eqPred, map_render_holeFrag,
        flatten_values_holeFrag, map_const_q,
        String.append_assoc, String.append_empty]
  rw [if_neg hP, if_neg hP]
  rfl

example :
    modelConstructor
      { tableName := "test", primaryKeys := .single "id", autoIncrement := some "id" }
      [("id", { type := .integer }), ("name", { type := .text })] =
    .ok { tableName := "test",
          columns := [("id", { type := .integer }), ("name", { type := .text })],
          primaryKeys := ["id"], autoIncrementColumn := some "id",
          uniqueKeys := [] } := by rfl

example :
    createTableDefinition
      { tableName := "test",
        columns := [("id", { type := .integer }), ("name", { type := .text })],
        primaryKeys := ["id"], autoIncrementColumn := some "id", uniqueKeys := [] } =
    "CREATE TABLE `test` (id integer PRIMARY KEY AUTOINCREMENT, name text);" := by rfl

example :
    createTableDefinition
      { tableName := "test",
        columns := [("id", { type := .integer }),
                    ("name", { type := .text, notNull := true })],
        primaryKeys := ["id", "name"], autoIncrementColumn := none,
        uniqueKeys := [["id", "name"]] } =
    "CREATE TABLE `test` (id integer, name text NOT NULL, PRIMARY KEY (id, name), UNIQUE (id, name));" := by rfl

/-- C8: the order-by normalization renders a bare column name double-quoted;
an object spec as the double-quoted column name followed by ` DESC` exactly
when `descending` is true and ` NULLS LAST` exactly when `nullLast` is true
(no suffix otherwise); and a list as the comma-joined renderings of its
elements in input order. -/
theorem transformOrderBy_rendering :
    (∀ s : String, transformOrderBy (.one (.col s)) = "\"" ++ s ++ "\"")
    ∧ (∀ c : String, transformOrderBy (.one (.spec c false none)) = "\"" ++ c ++ "\"")
    ∧ (∀ c : String, transformOrderBy (.one (.spec c false (some false))) = "\"" ++ c ++ "\"")
    ∧ (∀ c : String, transformOrderBy (.one (.spec c true none)) = "\"" ++ c ++ "\"" ++ " DESC")
    ∧ (∀ c : String,
        transformOrderBy (.one (.spec c true (some false))) = "\"" ++ c ++ "\"" ++ " DESC")
    ∧ (∀ c : String,
        transformOrderBy (.one (.spec c false (some true))) = "\"" ++ c ++ "\"" ++ " NULLS LAST")
    ∧ (∀ c : String,
        transformOrderBy (.one (.spec c true (some true)))
          = "\"" ++ c ++ "\"" ++ " DESC" ++ " NULLS LAST")
    ∧ (∀ l : List OrderByItem,
        transformOrderBy (.many l) = joinSep ", " (l.map (fun i => transformOrderBy (.one i))))
    ∧ transformOrderBy (.many [.spec "a" true (some true), .col "b"])
        = "\"a\" DESC NULLS LAST, \"b\"" := by
  refine ⟨fun s => rfl, fun c => ?_, fun c => ?_, fun c => ?_, fun c => ?_, fun c => ?_,
    fun c => ?_, fun l => rfl, by rfl⟩
  all_goals simp [transformOrderBy, transformOrderByItem, String.append_empty]

/-- C5: a select or delete whose `where` clause is the empty object yields a
query with no `WHERE` segment (it equals the no-filter rendering, with the
empty-object `whereSegment` contributing nothing) and an empty bindings
array. -/
theorem empty_where_is_no_filter (tableName : String) (opts : GenerateQueryOptions)
    (pk : PrimaryKeysArg) (h0 : tableName ≠ "") (hw : opts.where_ = some []) :
    GenerateQuery "SELECT" tableName opts pk =
      .ok { query := "SELECT * FROM `" ++ tableName ++ "`"
              ++ orderBySegment opts.orderBy ++ limitOffsetSegment opts.limit opts.offset,
            bindings := [] }
    ∧ GenerateQuery "DELETE" tableName opts pk =
      .ok { query := "DELETE FROM `" ++ tableName ++ "`", bindings := [] } := by
  constructor <;>
    simp [GenerateQuery, h0, hw, whereSegment, whereBindings, String.append_empty]

theorem empty_where_is_no_filter_checked :
    GenerateQuery "SELECT" "users" { where_ := some [], limit := some 3 } (.single "id") =
      .ok { query := "SELECT * FROM `users` LIMIT 3", bindings := [] }
    ∧ GenerateQuery "DELETE" "users" { where_ := some [] } (.single "id") =
      .ok { query := "DELETE FROM `users`", bindings := [] } := by
  constructor
  · exact (empty_where_is_no_filter "users" { where_ := some [], limit := some 3 }
      (.single "id") (by decide) rfl).1
  · exact (empty_where_is_no_filter "users" { where_ := some [] }
      (.single "id") (by decide) rfl).2

/-- C9: the select query is the fixed prefix followed by the
`limitOffsetSegment`, and that segment is empty whenever `limit` is not
truthy (in particular when `offset` is given without `limit`, neither
`LIMIT` nor `OFFSET` text is emitted), carries ` LIMIT <n>` alone when only
`limit` is truthy, and carries ` LIMIT <n> OFFSET <m>` when both are. -/
theorem select_offset_requires_limit (tableName : String) (opts : GenerateQueryOptions)
    (pk : PrimaryKeysArg) (h0 : tableName ≠ "") :
    GenerateQuery "SELECT" tableName opts pk =
      .ok { query := "SELECT * FROM `" ++ tableName ++ "`" ++ whereSegment opts.where_
              ++ orderBySegment opts.orderBy ++ limitOffsetSegment opts.limit opts.offset,
            bindings := whereBindings opts.where_ }
    ∧ (truthyNat opts.limit = false → limitOffsetSegment opts.limit opts.offset = "")
    ∧ (∀ l : Nat, opts.limit = some l → truthyNat opts.limit = true →
        truthyNat opts.offset = false →
        limitOffsetSegment opts.limit opts.offset = " LIMIT " ++ toString l)
    ∧ (∀ l m : Nat, opts.limit = some l → opts.offset = some m →
        truthyNat opts.limit = true → truthyNat opts.offset = true →
        limitOffsetSegment opts.limit opts.offset
          = " LIMIT " ++ toString l ++ " OFFSET " ++ toString m) := by
  refine ⟨by simp [GenerateQuery, h0], ?_, ?_, ?_⟩
  · intro hl
    cases hlim : opts.limit with
    | none => rfl
    | some l =>
        rw [hlim] at hl
        simp only [truthyNat, bne_iff_ne, ne_eq, Decidable.not_not] at hl
        simp [limitOffsetSegment, hl]
  · intro l hl htl hto
    rw [hl] at htl ⊢
    simp only [truthyNat, bne_iff_ne, ne_eq] at htl
    cases hoff : opts.offset with
    | none => simp [limitOffsetSegment, htl, String.append_assoc]
    | some o =>
        rw [hoff] at hto
        simp only [truthyNat, bne_iff_ne, ne_eq, Bool.not_eq_true,
          decide_eq_false_iff_not, Decidable.not_not] at hto
        simp [limitOffsetSegment, htl, hto, String.append_assoc, String.append_empty]
  · intro l m hl hm htl hto
    rw [hl] at htl
    rw [hm] at hto
    simp only [truthyNat, bne_iff_ne, ne_eq] at htl hto
    rw [hl, hm]
    simp [limitOffsetSegment, htl, hto, String.append_assoc]

theorem select_offset_requires_limit_checked :
    GenerateQuery "SELECT" "t" { offset := some 5 } (.single "id") =
      .ok { query := "SELECT * FROM `t`", bindings := [] }
    ∧ limitOffsetSegment (some 0) (some 5) = ""
    ∧ limitOffsetSegment (some 2) (some 5) = " LIMIT 2 OFFSET 5" := by
  have h1 := select_offset_requires_limit "t" { offset := some 5 } (.single "id") (by decide)
  have h2 := select_offset_requires_limit "t" { limit := some 0, offset := some 5 }
    (.single "id") (by decide)
  have h3 := select_offset_requires_limit "t" { limit := some 2, offset := some 5 }
    (.single "id") (by decide)
  refine ⟨?_, ?_, ?_⟩
  · have := h1.1
    simpa using this
  · exact h2.2.1 (by decide)
  · exact h3.2.2.2 2 5 rfl rfl (by decide) (by decide)

/-- Whether an `Except` result is an error. -/
def isError {α : Type} : Except String α → Bool
  | .error _ => true
  | .ok _ => false

/-- C3: `GenerateQuery` fails exactly when the table name is empty, the
statement kind is not one of the recognized `QueryType` string values, the
data clause is absent or empty for insert/insert-or-replace/update, or, for
upsert, any of data, upsertOnlyUpdateData, where is absent or empty; the
upsert failure carries the message about all three clauses, and every other
input returns an ok `{query, bindings}` pair. -/
theorem GenerateQuery_error_conditions (type tableName : String)
    (opts : GenerateQueryOptions) (pk : PrimaryKeysArg) :
    (isError (GenerateQuery type tableName opts pk) = true ↔
      tableName = ""
      ∨ (type ≠ "SELECT" ∧ type ≠ "DELETE" ∧ type ≠ "INSERT" ∧ type ≠ "INSERT or REPLACE"
          ∧ type ≠ "UPDATE" ∧ type ≠ "UPSERT")
      ∨ ((type = "INSERT" ∨ type = "INSERT or REPLACE" ∨ type = "UPDATE")
          ∧ opts.data.getD [] = [])
      ∨ (type = "UPSERT"
          ∧ (opts.data.getD [] = [] ∨ opts.upsertOnlyUpdateData.getD [] = []
              ∨ opts.where_.getD [] = [])))
    ∧ (tableName ≠ "" → type = "UPSERT" →
        (opts.data.getD [] = [] ∨ opts.upsertOnlyUpdateData.getD [] = []
          ∨ opts.where_.getD [] = []) →
        GenerateQuery type tableName opts pk =
          .error "Must provide data to insert with, data to update with, and where keys in Upsert") := by
  constructor
  · by_cases h0 : tableName = ""
    · simp [GenerateQuery, h0, isError]
    by_cases hS : type = "SELECT"
    · simp [GenerateQuery, h0, hS, isError]
    by_cases hD : type = "DELETE"
    · simp [GenerateQuery, h0, hS, hD, isError]
    by_cases hI : type = "INSERT" ∨ type = "INSERT or REPLACE"
    · cases hd : opts.data with
      | none =>
          rcases hI with h | h <;> simp [GenerateQuery, h0, h, hd, isError]
      | some d =>
          by_cases he : d.isEmpty <;>
            rcases hI with h | h <;>
              simp_all [GenerateQuery, h0, isError]
    by_cases hU : type = "UPDATE"
    · cases hd : opts.data with
      | none => simp [GenerateQuery, h0, hS, hD, hU, hI, hd, isError]
      | some d =>
          by_cases he : d.isEmpty <;> simp_all [GenerateQuery, h0, isError]
    by_cases hP : type = "UPSERT"
    · by_cases he : opts.data.getD [] = [] ∨ opts.upsertOnlyUpdateData.getD [] = []
          ∨ opts.where_.getD [] = [] <;>
        simp_all [GenerateQuery, h0, isError]
    · have hne : type ≠ "INSERT" ∧ type ≠ "INSERT or REPLACE" := by
        constructor <;> intro h <;> exact hI (by simp [h])
      simp [GenerateQuery, h0, hS, hD, hne.1, hne.2, hU, hP, isError]
  · intro h0 hP he
    rw [hP]
    simp [GenerateQuery, h0, he]

theorem GenerateQuery_error_conditions_checked :
    GenerateQuery "UPSERT" "t" { data := some [("id", .vInt 1)] } (.single "id") =
      .error "Must provide data to insert with, data to update with, and where keys in Upsert" :=
  (GenerateQuery_error_conditions "UPSERT" "t" { data := some [("id", .vInt 1)] }
    (.single "id")).2 (by decide) rfl (Or.inr (Or.inl rfl))

/-- C10: for insert and insert-or-replace, an entry whose column descriptor
carries a truthy `json` flag renders its placeholder as `json(?)` and binds
the JSON serialization of the value; an entry whose descriptor lacks the
flag (or has no descriptor) renders a plain `?` and binds the value
unchanged, and the emitted query/bindings are exactly the per-entry
renderings in data order. -/
theorem insert_json_column_rendering (type tableName : String)
    (opts : GenerateQueryOptions) (pk : PrimaryKeysArg) (d : List (String × JSValue))
    (ht : type = "INSERT" ∨ type = "INSERT or REPLACE") (h0 : tableName ≠ "")
    (hd : opts.data = some d) (hne : d ≠ []) :
    GenerateQuery type tableName opts pk =
      .ok { query := type ++ " INTO `" ++ tableName ++ "`"
              ++ " (" ++ joinSep ", " (d.map Prod.fst) ++ ")"
              ++ " VALUES (" ++ joinSep ", " (d.map (insertEntryValue opts.columns)) ++ ")",
            bindings := d.map (insertEntryBinding opts.columns) }
    ∧ (∀ (k : String) (v : JSValue) (c : ModelColumn),
        columnLookup opts.columns k = some c → c.json = true →
        insertEntryValue opts.columns (k, v) = "json(?)"
          ∧ insertEntryBinding opts.columns (k, v) = .vStr (jsonStringify v))
    ∧ (∀ (k : String) (v : JSValue) (c : ModelColumn),
        columnLookup opts.columns k = some c → c.json = false →
        insertEntryValue opts.columns (k, v) = "?"
          ∧ insertEntryBinding opts.columns (k, v) = v)
    ∧ (∀ (k : String) (v : JSValue), columnLookup opts.columns k = none →
        insertEntryValue opts.columns (k, v) = "?"
          ∧ insertEntryBinding opts.columns (k, v) = v) := by
  refine ⟨?_, ?_, ?_, ?_⟩
  · rcases ht with h | h <;> simp [GenerateQuery, h, h0, hd, hne]
  · intro k v c hc hj
    constructor <;> simp [insertEntryValue, insertEntryBinding, hc, hj]
  · intro k v c hc hj
    constructor <;> simp [insertEntryValue, insertEntryBinding, hc, hj]
  · intro k v hc
    constructor <;> simp [insertEntryValue, insertEntryBinding, hc]

theorem insert_json_column_rendering_checked :
    GenerateQuery "INSERT" "t"
      { data := some [("meta", .vStr "x"), ("id", .vInt 1)],
        columns := some [("meta", { type := .text, json := true }),
                         ("id", { type := .integer })] }
      (.single "id") =
      .ok { query := "INSERT INTO `t` (meta, id) VALUES (json(?), ?)",
            bindings := [.vStr "\"x\"", .vInt 1] } :=
  (insert_json_column_rendering "INSERT" "t"
    { data := some [("meta", .vStr "x"), ("id", .vInt 1)],
      columns := some [("meta", { type := .text, json := true }),
                       ("id", { type := .integer })] }
    (.single "id") [("meta", .vStr "x"), ("id", .vInt 1)]
    (Or.inl rfl) (by decide) rfl (by decide)).1

theorem countQ_joinSep_zero {sep : String} (hs : countQ sep = 0) {l : List String}
    (hl : ∀ s ∈ l, countQ s = 0) : countQ (joinSep sep l) = 0 := by
  induction l with
  | nil => rfl
  | cons x xs ih =>
    cases xs with
    | nil => exact hl x (by simp)
    | cons y ys =>
        simp only [joinSep, countQ_append]
        rw [hl x (by simp), hs, ih (fun s hsm => hl s (List.mem_cons_of_mem _ hsm))]

theorem countQ_limitOffsetSegment (limit offset : Option Nat) :
    countQ (limitOffsetSegment limit offset) = 0 := by
  unfold limitOffsetSegment
  cases limit with
  | none => rfl
  | some l =>
      dsimp only
      by_cases hl : (l != 0) = true
      · rw [if_pos hl]
        cases offset with
        | none =>
            simp [countQ_append, countQ_natToString,
              show countQ " LIMIT " = 0 from by decide,
              show countQ "" = 0 from by decide]
        | some o =>
            by_cases ho : (o != 0) = true <;>
              simp [ho, countQ_append, countQ_natToString,
                show countQ " LIMIT " = 0 from by decide,
                show countQ " OFFSET " = 0 from by decide,
                show countQ "" = 0 from by decide]
      · rw [if_neg hl]
        rfl

theorem litsQFree_nil : litsQFree [] := by
  intro s hs
  simp at hs

theorem litsQFree_cons_lit {s : String} {ps : List QPart} (h : countQ s = 0)
    (hps : litsQFree ps) : litsQFree (QPart.lit s :: ps) := by
  intro t ht
  rcases List.mem_cons.mp ht with h1 | h1
  · injection h1 with h2
    rw [h2]
    exact h
  · exact hps t h1

theorem litsQFree_cons_hole {v : JSValue} {ps : List QPart} (hps : litsQFree ps) :
    litsQFree (QPart.hole v :: ps) := by
  intro t ht
  rcases List.mem_cons.mp ht with h1 | h1
  · exact absurd h1 (by simp)
  · exact hps t h1

theorem litsQFree_eqPredParts {kv : String × JSValue} (h : countQ kv.1 = 0) :
    litsQFree (eqPredParts kv) :=
  litsQFree_cons_lit h (litsQFree_cons_lit (by decide) (litsQFree_cons_hole litsQFree_nil))

theorem litsQFree_insertEntryParts (cols : Option (List (String × ModelColumn)))
    (kv : String × JSValue) : litsQFree (insertEntryParts cols kv) := by
  unfold insertEntryParts
  cases columnLookup cols kv.1 with
  | none => exact litsQFree_cons_hole litsQFree_nil
  | some c =>
      dsimp only
      by_cases h : c.json
      · rw [if_pos h]
        exact litsQFree_cons_lit (by decide)
          (litsQFree_cons_hole (litsQFree_cons_lit (by decide) litsQFree_nil))
      · rw [if_neg h]
        exact litsQFree_cons_hole litsQFree_nil

theorem litsQFree_eqPred_join {sep : String} (hsep : countQ sep = 0)
    {l : List (String × JSValue)} (h : ∀ kv ∈ l, countQ kv.1 = 0) :
    litsQFree (joinPartsSep [QPart.lit sep] (l.map eqPredParts)) := by
  refine litsQFree_joinPartsSep (litsQFree_cons_lit hsep litsQFree_nil) ?_
  intro x hx
  rcases List.mem_map.mp hx with ⟨kv, hkv, rfl⟩
  exact litsQFree_eqPredParts (h kv hkv)

theorem litsQFree_whereSegmentParts {w : Option (List (String × JSValue))}
    (h : ∀ kv ∈ w.getD [], countQ kv.1 = 0) : litsQFree (whereSegmentParts w) := by
  cases w with
  | none => exact litsQFree_nil
  | some l =>
      unfold whereSegmentParts
      dsimp only
      by_cases he : l.isEmpty
      · rw [if_pos he]
        exact litsQFree_nil
      · rw [if_neg he]
        exact litsQFree_cons_lit (by decide) (litsQFree_eqPred_join (by decide) h)

/-- Every literal fragment emitted by the parts-level generator is `?`-free
as soon as the table name, the clause keys, the rendered order-by segment
and the conflict-target string are. -/
theorem litsQFree_GenerateQueryParts (type tableName : String)
    (opts : GenerateQueryOptions) (pk : PrimaryKeysArg)
    (h0 : countQ tableName = 0)
    (hw : ∀ kv ∈ opts.where_.getD [], countQ kv.1 = 0)
    (hd : ∀ kv ∈ opts.data.getD [], countQ kv.1 = 0)
    (hu : ∀ kv ∈ opts.upsertOnlyUpdateData.getD [], countQ kv.1 = 0)
    (hob : countQ (orderBySegment opts.orderBy) = 0)
    (hpk : countQ (primaryKeyString pk) = 0)
    (ps : List QPart) (hps : GenerateQueryParts type tableName opts pk = .ok ps) :
    litsQFree ps := by
  have hkeys : ∀ (l : List (String × JSValue)), (∀ kv ∈ l, countQ kv.1 = 0) →
      ∀ s ∈ l.map Prod.fst, countQ s = 0 := by
    intro l hl s hsm
    rcases List.mem_map.mp hsm with ⟨kv, hkv, rfl⟩
    exact hl kv hkv
  unfold GenerateQueryParts at hps
  by_cases ht0 : tableName = ""
  · rw [if_pos ht0] at hps
    cases hps
  rw [if_neg ht0] at hps
  by_cases hS : type = "SELECT"
  · rw [if_pos hS] at hps
    injection hps with hps
    subst hps
    refine litsQFree_append (litsQFree_append ?_ (litsQFree_whereSegmentParts hw)) ?_
    · exact litsQFree_cons_lit
        (by simp [countQ_append, h0, show countQ "SELECT * FROM `" = 0 from by decide,
          show countQ "`" = 0 from by decide]) litsQFree_nil
    · exact litsQFree_cons_lit hob
        (litsQFree_cons_lit (countQ_limitOffsetSegment _ _) litsQFree_nil)
  rw [if_neg hS] at hps
  by_cases hD : type = "DELETE"
  · rw [if_pos hD] at hps
    injection hps with hps
    subst hps
    refine litsQFree_append ?_ (litsQFree_whereSegmentParts hw)
    exact litsQFree_cons_lit
      (by simp [countQ_append, h0, show countQ "DELETE FROM `" = 0 from by decide,
        show countQ "`" = 0 from by decide]) litsQFree_nil
  rw [if_neg hD] at hps
  by_cases hI : type = "INSERT" ∨ type = "INSERT or REPLACE"
  · rw [if_pos hI] at hps
    cases hdat : opts.data with
    | none =>
        rw [hdat] at hps
        cases hps
    | some d =>
        rw [hdat] at hps
        dsimp only at hps
        by_cases he : d.isEmpty
        · rw [if_pos he] at hps
          cases hps
        · rw [if_neg he] at hps
          injection hps with hps
          subst hps
          have htq : countQ type = 0 := by
            rcases hI with h | h <;> rw [h] <;> decide
          have hdk : ∀ kv ∈ d, countQ kv.1 = 0 := by
            intro kv hkv
            exact hd kv (by simp [hdat, hkv])
          refine litsQFree_append (litsQFree_append ?_ ?_) ?_
          · refine litsQFree_cons_lit ?_ litsQFree_nil
            simp [countQ_append, h0, htq,
              countQ_joinSep_zero (show countQ ", " = 0 from by decide) (hkeys d hdk),
              show countQ " INTO `" = 0 from by decide,
              show countQ "`" = 0 from by decide,
              show countQ " (" = 0 from by decide,
              show countQ ")" = 0 from by decide,
              show countQ " VALUES (" = 0 from by decide]
          · refine litsQFree_joinPartsSep (litsQFree_cons_lit (by decide) litsQFree_nil) ?_
            intro x hx
            rcases List.mem_map.mp hx with ⟨kv, hkv, rfl⟩
            exact litsQFree_insertEntryParts _ _
          · exact litsQFree_cons_lit (by decide) litsQFree_nil
  rw [if_neg hI] at hps
  by_cases hU : type = "UPDATE"
  · rw [if_pos hU] at hps
    cases hdat : opts.data with
    | none =>
        rw [hdat] at hps
        cases hps
    | some d =>
        rw [hdat] at hps
        dsimp only at hps
        by_cases he : d.isEmpty
        · rw [if_pos he] at hps
          cases hps
        · rw [if_neg he] at hps
          injection hps with hps
          subst hps
          have hdk : ∀ kv ∈ d, countQ kv.1 = 0 := by
            intro kv hkv
            exact hd kv (by simp [hdat, hkv])
          refine litsQFree_append (litsQFree_append ?_ ?_) (litsQFree_whereSegmentParts hw)
          · exact litsQFree_cons_lit
              (by simp [countQ_append, h0, show countQ "UPDATE `" = 0 from by decide,
                show countQ "`" = 0 from by decide,
                show countQ " SET " = 0 from by decide]) litsQFree_nil
          · exact litsQFree_eqPred_join (by decide) hdk
  rw [if_neg hU] at hps
  by_cases hP : type = "UPSERT"
  · rw [if_pos hP] at hps
    dsimp only at hps
    simp only [List.isEmpty_iff] at hps
    by_cases he : opts.data.getD [] = [] ∨ opts.upsertOnlyUpdateData.getD [] = []
        ∨ opts.where_.getD [] = []
    · rw [if_pos he] at hps
      cases hps
    · rw [if_neg he] at hps
      injection hps with hps
      subst hps
      refine litsQFree_append (litsQFree_append (litsQFree_append (litsQFree_append
        (litsQFree_append ?_ ?_) ?_) ?_) ?_) ?_
      · refine litsQFree_cons_lit ?_ litsQFree_nil
        simp [countQ_append, h0,
          countQ_joinSep_zero (show countQ ", " = 0 from by decide)
            (hkeys _ hd),
          show countQ "INSERT INTO `" = 0 from by decide,
          show countQ "` (" = 0 from by decide,
          show countQ ")" = 0 from by decide,
          show countQ " VALUES (" = 0 from by decide]
      · refine litsQFree_joinPartsSep (litsQFree_cons_lit (by decide) litsQFree_nil) ?_
        intro x hx
        rcases List.mem_map.mp hx with ⟨kv, hkv, rfl⟩
        exact litsQFree_cons_hole litsQFree_nil
      · refine litsQFree_cons_lit ?_ litsQFree_nil
        simp [countQ_append, hpk,
          show countQ ") ON CONFLICT (" = 0 from by decide,
          show countQ ") DO UPDATE SET " = 0 from by decide]
      · exact litsQFree_eqPred_join (by decide) hu
      · exact litsQFree_cons_lit (by decide) litsQFree_nil
      · exact litsQFree_eqPred_join (by decide) hw
  rw [if_neg hP] at hps
  cases hps

/-- C1: the bindings array and the `?` placeholders of every successfully
generated query correspond one to one, left-to-right: the parts-level
generator (whose i-th placeholder carries the i-th binding by construction)
renders to exactly the returned query and bindings, and — whenever the
interpolated identifiers (table name, clause keys, rendered order-by,
conflict target) contain no `?` of their own — the number of `?` characters
in the query equals the length of the bindings array.  In particular an
insert/insert-or-replace with a data mapping of N entries, or an update with
no where filter, has exactly N bindings, in the data mapping's iteration
order. -/
theorem GenerateQuery_placeholders_match_bindings (type tableName : String)
    (opts : GenerateQueryOptions) (pk : PrimaryKeysArg) :
    ((GenerateQueryParts type tableName opts pk).map
        (fun ps => GeneratedStatement.mk (renderParts ps) (partValues ps))
      = GenerateQuery type tableName opts pk)
    ∧ (∀ r : GeneratedStatement, GenerateQuery type tableName opts pk = .ok r →
        countQ tableName = 0 →
        (∀ kv ∈ opts.where_.getD [], countQ kv.1 = 0) →
        (∀ kv ∈ opts.data.getD [], countQ kv.1 = 0) →
        (∀ kv ∈ opts.upsertOnlyUpdateData.getD [], countQ kv.1 = 0) →
        countQ (orderBySegment opts.orderBy) = 0 →
        countQ (primaryKeyString pk) = 0 →
        countQ r.query = r.bindings.length)
    ∧ (∀ (d : List (String × JSValue)) (r : GeneratedStatement),
        (type = "INSERT" ∨ type = "INSERT or REPLACE") → opts.data = some d →
        GenerateQuery type tableName opts pk = .ok r →
        r.bindings = d.map (insertEntryBinding opts.columns)
          ∧ r.bindings.length = d.length)
    ∧ (∀ (d : List (String × JSValue)) (r : GeneratedStatement),
        type = "UPDATE" → opts.data = some d → opts.where_.getD [] = [] →
        GenerateQuery type tableName opts pk = .ok r →
        r.bindings = d.map Prod.snd ∧ r.bindings.length = d.length) := by
  refine ⟨GenerateQueryParts_spec type tableName opts pk, ?_, ?_, ?_⟩
  · intro r hok h0 hw hd hu hob hpk
    have hspec := GenerateQueryParts_spec type tableName opts pk
    rw [hok] at hspec
    cases hps : GenerateQueryParts type tableName opts pk with
    | error e =>
        rw [hps] at hspec
        simp [Except.map] at hspec
    | ok ps =>
        rw [hps] at hspec
        simp only [Except.map, Except.ok.injEq] at hspec
        have hfree := litsQFree_GenerateQueryParts type tableName opts pk
          h0 hw hd hu hob hpk ps hps
        rw [← hspec]
        exact countQ_renderParts ps hfree
  · intro d r ht hdat hok
    by_cases h0 : tableName = ""
    · rcases ht with h | h <;> simp [GenerateQuery, h, h0, hdat] at hok
    by_cases hne : d = []
    · subst hne
      rcases ht with h | h <;> simp [GenerateQuery, h, h0, hdat] at hok
    · have := (insert_json_column_rendering type tableName opts pk d ht h0 hdat hne).1
      rw [this] at hok
      injection hok with hok
      rw [← hok]
      simp
  · intro d r hU hdat hwempty hok
    rw [hU] at hok
    by_cases h0 : tableName = ""
    · simp [GenerateQuery, h0] at hok
    by_cases hne : d = []
    · subst hne
      simp [GenerateQuery, h0, hdat] at hok
    · have hwb : whereBindings opts.where_ = [] := by
        cases hwc : opts.where_ with
        | none => rfl
        | some l =>
            rw [hwc] at hwempty
            simp at hwempty
            simp [whereBindings, hwempty]
      have hq : GenerateQuery "UPDATE" tableName opts pk =
          .ok { query := "UPDATE `" ++ tableName ++ "`"
                  ++ " SET " ++ joinSep ", " (d.map (fun kv => kv.1 ++ " = ?"))
                  ++ whereSegment opts.where_,
                bindings := d.map Prod.snd ++ whereBindings opts.where_ } := by
        simp [GenerateQuery, h0, hdat, hne]
      rw [hq] at hok
      injection hok with hok
      rw [← hok]
      simp [hwb]

theorem GenerateQuery_placeholders_match_bindings_checked :
    countQ "INSERT INTO `t` (id, name) VALUES (?, ?)" = 2
    ∧ GenerateQuery "INSERT" "t"
        { data := some [("id", .vInt 1), ("name", .vStr "x")] } (.single "id") =
      .ok { query := "INSERT INTO `t` (id, name) VALUES (?, ?)",
            bindings := [.vInt 1, .vStr "x"] } := by
  refine ⟨?_, by rfl⟩
  exact (GenerateQuery_placeholders_match_bindings "INSERT" "t"
      { data := some [("id", .vInt 1), ("name", .vStr "x")] } (.single "id")).2.1
    { query := "INSERT INTO `t` (id, name) VALUES (?, ?)",
      bindings := [.vInt 1, .vStr "x"] }
    (by rfl) (by decide) (by decide) (by decide) (by decide) (by decide) (by decide)

theorem eq_singleton_of_mem_of_len (l : List String) (b : String)
    (hmem : b ∈ l) (hlen : ¬ l.length > 1) : l = [b] := by
  cases l with
  | nil => cases hmem
  | cons x tl =>
      cases tl with
      | nil =>
          simp at hmem
          rw [hmem]
      | cons y tl2 =>
          exact absurd (by simp) hlen

/-- Inversion of a successful `Model` construction: the resulting state is
the stored options, the table name is nonempty, the normalized primary-key
list is nonempty, and a truthy auto-increment option is the single primary
key and an existing integer column. -/
theorem modelConstructor_ok_inv (o : ModelOptions) (c : List (String × ModelColumn))
    (m : ModelState) (h : modelConstructor o c = .ok m) :
    m = { tableName := o.tableName, columns := c,
          primaryKeys := normalizePrimaryKeys o.primaryKeys,
          autoIncrementColumn := o.autoIncrement,
          uniqueKeys := o.uniqueKeys.getD [] }
    ∧ o.tableName ≠ ""
    ∧ normalizePrimaryKeys o.primaryKeys ≠ []
    ∧ (∀ a : String, o.autoIncrement = some a → a ≠ "" →
        normalizePrimaryKeys o.primaryKeys = [a]
        ∧ ∃ col : ModelColumn, c.lookup a = some col ∧ col.type = DataTypes.integer) := by
  unfold modelConstructor at h
  dsimp only at h
  by_cases h1 : o.d1ormValid = false
  · rw [if_pos h1] at h
    cases h
  rw [if_neg h1] at h
  by_cases h2 : o.tableName = ""
  · rw [if_pos h2] at h
    cases h
  rw [if_neg h2] at h
  by_cases h3 : (normalizePrimaryKeys o.primaryKeys).isEmpty = true
      ∨ jsFindTruthy (fun x => x.isEmpty) (normalizePrimaryKeys o.primaryKeys) = true
  · rw [if_pos h3] at h
    cases h
  rw [if_neg h3] at h
  have hpkne : normalizePrimaryKeys o.primaryKeys ≠ [] := by
    intro hx
    exact h3 (Or.inl (by simp [hx]))
  by_cases h4 : c.isEmpty = true
  · rw [if_pos h4] at h
    cases h
  rw [if_neg h4] at h
  by_cases h5 : jsFindTruthy (fun x => (c.lookup x).isNone) (normalizePrimaryKeys o.primaryKeys) = true
  · rw [if_pos h5] at h
    cases h
  rw [if_neg h5] at h
  cases hai : o.autoIncrement with
  | none =>
      rw [hai] at h
      dsimp only at h
      injection h with h
      exact ⟨h.symm, h2, hpkne, fun a ha => by simp [hai] at ha⟩
  | some a =>
      rw [hai] at h
      dsimp only at h
      by_cases h6 : a = ""
      · rw [if_pos h6] at h
        injection h with h
        refine ⟨h.symm, h2, hpkne, fun b hb hbne => ?_⟩
        injection hb with hb
        exact absurd (hb ▸ h6) hbne
      rw [if_neg h6] at h
      by_cases h7 : (normalizePrimaryKeys o.primaryKeys).contains a = false
      · rw [if_pos h7] at h
        cases h
      rw [if_neg h7] at h
      by_cases h8 : (normalizePrimaryKeys o.primaryKeys).length > 1
      · rw [if_pos h8] at h
        cases h
      rw [if_neg h8] at h
      cases hlk : c.lookup a with
      | none =>
          rw [hlk] at h
          cases h
      | some col =>
          rw [hlk] at h
          dsimp only at h
          by_cases h9 : col.type ≠ DataTypes.integer
          · rw [if_pos h9] at h
            cases h
          rw [if_neg h9] at h
          injection h with h
          refine ⟨h.symm, h2, hpkne, fun b hb hbne => ?_⟩
          injection hb with hb
          subst hb
          have hc : (normalizePrimaryKeys o.primaryKeys).contains a = true := by
            revert h7
            cases (normalizePrimaryKeys o.primaryKeys).contains a <;> simp
          have hmem : a ∈ normalizePrimaryKeys o.primaryKeys := by
            simpa using hc
          exact ⟨eq_singleton_of_mem_of_len _ _ hmem h8, col, hlk, not_not.mp h9⟩
/-- The query text of a successful upsert, parameterized by the conflict
target that ends up inside `ON CONFLICT (...)`. -/
def upsertQueryText (tableName : String) (opts : GenerateQueryOptions)
    (conflictTarget : String) : String :=
  "INSERT INTO `" ++ tableName ++ "` ("
    ++ joinSep ", " ((opts.data.getD []).map Prod.fst) ++ ")"
    ++ " VALUES (" ++ joinSep ", " (List.replicate (opts.data.getD []).length "?") ++ ")"
    ++ " ON CONFLICT (" ++ conflictTarget ++ ") DO UPDATE SET"
    ++ " " ++ joinSep ", " ((opts.upsertOnlyUpdateData.getD []).map (fun kv => kv.1 ++ " = ?"))
    ++ " WHERE " ++ joinSep " AND " ((opts.where_.getD []).map (fun kv => kv.1 ++ " = ?"))

/-- The bindings of a successful upsert: data values, then conflict-branch
update values, then where values. -/
def upsertBindings (opts : GenerateQueryOptions) : List JSValue :=
  (opts.data.getD []).map Prod.snd ++ (opts.upsertOnlyUpdateData.getD []).map Prod.snd
    ++ (opts.where_.getD []).map Prod.snd

theorem GenerateQuery_upsert_eq (tableName : String) (opts : GenerateQueryOptions)
    (pk : PrimaryKeysArg) (h0 : tableName ≠ "")
    (hd : opts.data.getD [] ≠ []) (hu : opts.upsertOnlyUpdateData.getD [] ≠ [])
    (hw : opts.where_.getD [] ≠ []) :
    GenerateQuery "UPSERT" tableName opts pk =
      .ok { query := upsertQueryText tableName opts (primaryKeyString pk),
            bindings := upsertBindings opts } := by
  simp [GenerateQuery, upsertQueryText, upsertBindings, h0, hd, hu, hw,
    String.append_assoc]

/-- C2: `Model.Upsert` forwards the validated schema's primary-key list, so
the conflict target of a model-generated upsert is exactly the comma-joined
primary-key list; a caller overriding the conflict target at `GenerateQuery`
gets a single column name emitted as-is and an ordered list comma-joined in
order. -/
theorem upsert_conflict_target (o : ModelOptions) (c : List (String × ModelColumn))
    (m : ModelState) (opts : GenerateQueryOptions)
    (hm : modelConstructor o c = .ok m)
    (hd : opts.data.getD [] ≠ []) (hu : opts.upsertOnlyUpdateData.getD [] ≠ [])
    (hw : opts.where_.getD [] ≠ []) :
    modelUpsertStatement m opts =
      .ok { query := upsertQueryText m.tableName opts (joinSep ", " m.primaryKeys),
            bindings := upsertBindings opts }
    ∧ (∀ (t : String) (opts2 : GenerateQueryOptions) (s : String), t ≠ "" →
        opts2.data.getD [] ≠ [] → opts2.upsertOnlyUpdateData.getD [] ≠ [] →
        opts2.where_.getD [] ≠ [] →
        GenerateQuery "UPSERT" t opts2 (.single s) =
          .ok { query := upsertQueryText t opts2 s, bindings := upsertBindings opts2 })
    ∧ (∀ (t : String) (opts2 : GenerateQueryOptions) (l : List String), t ≠ "" →
        opts2.data.getD [] ≠ [] → opts2.upsertOnlyUpdateData.getD [] ≠ [] →
        opts2.where_.getD [] ≠ [] →
        GenerateQuery "UPSERT" t opts2 (.multiple l) =
          .ok { query := upsertQueryText t opts2 (joinSep ", " l),
                bindings := upsertBindings opts2 }) := by
  refine ⟨?_, ?_, ?_⟩
  · have hinv := modelConstructor_ok_inv o c m hm
    have h0 : m.tableName ≠ "" := by
      rw [hinv.1]
      exact hinv.2.1
    exact GenerateQuery_upsert_eq m.tableName opts (.multiple m.primaryKeys) h0 hd hu hw
  · intro t opts2 s h0 hd2 hu2 hw2
    exact GenerateQuery_upsert_eq t opts2 (.single s) h0 hd2 hu2 hw2
  · intro t opts2 l h0 hd2 hu2 hw2
    exact GenerateQuery_upsert_eq t opts2 (.multiple l) h0 hd2 hu2 hw2

theorem upsert_conflict_target_checked :
    modelUpsertStatement
      { tableName := "test", columns := [("id", { type := .integer }), ("name", { type := .text })],
        primaryKeys := ["id", "name"], autoIncrementColumn := none, uniqueKeys := [] }
      { where_ := some [("id", .vInt 1)],
        data := some [("id", .vInt 1), ("name", .vStr "x")],
        upsertOnlyUpdateData := some [("name", .vStr "x")] } =
      .ok { query := "INSERT INTO `test` (id, name) VALUES (?, ?) ON CONFLICT (id, name) DO UPDATE SET name = ? WHERE id = ?",
            bindings := [.vInt 1, .vStr "x", .vStr "x", .vInt 1] } :=
  (upsert_conflict_target
    { tableName := "test", primaryKeys := .multiple ["id", "name"] }
    [("id", { type := .integer }), ("name", { type := .text })]
    { tableName := "test", columns := [("id", { type := .integer }), ("name", { type := .text })],
      primaryKeys := ["id", "name"], autoIncrementColumn := none, uniqueKeys := [] }
    { where_ := some [("id", .vInt 1)],
      data := some [("id", .vInt 1), ("name", .vStr "x")],
      upsertOnlyUpdateData := some [("name", .vStr "x")] }
    (by rfl) (by decide) (by decide) (by decide)).1

/-- C4 counterexample: a model whose `uniqueKeys` groups name a column
(`nope`) that does not exist in the columns mapping is constructed
successfully — no validation error is raised for the dangling reference. -/
theorem model_construction_accepts_dangling_uniqueKeys :
    modelConstructor
      { tableName := "test", primaryKeys := .single "id", uniqueKeys := some [["nope"]] }
      [("id", { type := .integer })] =
    .ok { tableName := "test", columns := [("id", { type := .integer })],
          primaryKeys := ["id"], autoIncrementColumn := none,
          uniqueKeys := [["nope"]] } := by rfl

/-- C4 amended: the constructor never validates (or even inspects)
`uniqueKeys` beyond storing it: the outcome of construction with any
`uniqueKeys` value equals the outcome without it, with the stored group list
swapped in — so construction succeeds or fails independently of dangling
unique-key column references. -/
theorem modelConstructor_ignores_uniqueKeys (o : ModelOptions)
    (c : List (String × ModelColumn)) (uk : Option (List (List String))) :
    modelConstructor { o with uniqueKeys := uk } c =
      (modelConstructor o c).map (fun m => { m with uniqueKeys := uk.getD [] }) := by
  unfold modelConstructor
  dsimp only
  by_cases h1 : o.d1ormValid = false
  · simp [h1, Except.map]
  by_cases h2 : o.tableName = ""
  · simp [h1, h2, Except.map]
  by_cases h3 : normalizePrimaryKeys o.primaryKeys = []
      ∨ jsFindTruthy (fun x => x.isEmpty) (normalizePrimaryKeys o.primaryKeys) = true
  · simp [h1, h2, h3, Except.map]
  by_cases h4 : c = []
  · simp [h1, h2, h3, h4, Except.map]
  by_cases h5 : jsFindTruthy (fun x => (c.lookup x).isNone) (normalizePrimaryKeys o.primaryKeys) = true
  · simp [h1, h2, h3, h4, h5, Except.map]
  cases hai : o.autoIncrement with
  | none => simp [h1, h2, h3, h4, h5, hai, Except.map]
  | some a =>
      by_cases h6 : a = ""
      · simp [h1, h2, h3, h4, h5, hai, h6, Except.map]
      by_cases h7 : a ∈ normalizePrimaryKeys o.primaryKeys
      case neg => simp [h1, h2, h3, h4, h5, hai, h6, h7, Except.map]
      by_cases h8 : 1 < (normalizePrimaryKeys o.primaryKeys).length
      · simp [h1, h2, h3, h4, h5, hai, h6, h7, h8, Except.map]
      cases hlk : c.lookup a with
      | none => simp [h1, h2, h3, h4, h5, hai, h6, h7, h8, hlk, Except.map]
      | some col =>
          by_cases h9 : col.type = DataTypes.integer <;>
            simp [h1, h2, h3, h4, h5, hai, h6, h7, h8, hlk, h9, Except.map]

/-- A single-quote character, built without an apostrophe literal. -/
def singleQuote : String := String.mk [Char.ofNat 39]

/-- The concrete constructed model used to refute the single-quote claim. -/
def c6model : ModelState :=
  { tableName := "test",
    columns := [("id", { type := .integer }),
                ("is_admin", { type := .text, defaultValue := some (.vStr "test") })],
    primaryKeys := ["id"], autoIncrementColumn := none, uniqueKeys := [] }

/-- C6 counterexample: a constructed model with the string default `test`
renders ` DEFAULT "test"` (double quotes); it does not render the
single-quoted form the claim describes. -/
theorem createTableDefinition_string_default_double_quoted :
    modelConstructor
      { tableName := "test", primaryKeys := .single "id" }
      [("id", { type := .integer }),
       ("is_admin", { type := .text, defaultValue := some (.vStr "test") })] =
      .ok c6model
    ∧ createTableDefinition c6model =
        "CREATE TABLE `test` (id integer, is_admin text DEFAULT \"test\", PRIMARY KEY (id));"
    ∧ createTableDefinition c6model ≠
        "CREATE TABLE `test` (id integer, is_admin text DEFAULT " ++ singleQuote ++ "test"
          ++ singleQuote ++ ", PRIMARY KEY (id));" := by
  refine ⟨by rfl, by rfl, by decide⟩

/-- C6 amended: in the rendered CREATE TABLE definition, a column with a
default value gets a ` DEFAULT <literal>` suffix appended to its otherwise
unchanged definition, in which string defaults are quoted with DOUBLE quotes
while numeric and boolean defaults are bare literals; a column without a
default value gets no suffix. -/
theorem default_value_rendering :
    (∀ (ai : Option String) (name : String) (t : DataTypes) (nn j : Bool) (s : String),
        columnDefinitionEntry ai name
            { type := t, notNull := nn, defaultValue := some (.vStr s), json := j }
          = columnDefinitionEntry ai name
              { type := t, notNull := nn, defaultValue := none, json := j }
            ++ " DEFAULT " ++ "\"" ++ s ++ "\"")
    ∧ (∀ (ai : Option String) (name : String) (t : DataTypes) (nn j : Bool) (n : Int),
        columnDefinitionEntry ai name
            { type := t, notNull := nn, defaultValue := some (.vInt n), json := j }
          = columnDefinitionEntry ai name
              { type := t, notNull := nn, defaultValue := none, json := j }
            ++ " DEFAULT " ++ toString n)
    ∧ (∀ (ai : Option String) (name : String) (t : DataTypes) (nn j b : Bool),
        columnDefinitionEntry ai name
            { type := t, notNull := nn, defaultValue := some (.vBool b), json := j }
          = columnDefinitionEntry ai name
              { type := t, notNull := nn, defaultValue := none, json := j }
            ++ " DEFAULT " ++ (if b then "true" else "false"))
    ∧ (∀ (ai : Option String) (name : String) (t : DataTypes) (nn j : Bool),
        columnDefinitionEntry ai name
            { type := t, notNull := nn, defaultValue := none, json := j }
          = name ++ " " ++ t.render
            ++ (if ai = some name then " PRIMARY KEY AUTOINCREMENT" else "")
            ++ (if nn then " NOT NULL" else ""))
    ∧ (∀ m : ModelState, createTableDefinition m
        = "CREATE TABLE `" ++ m.tableName ++ "` ("
            ++ joinSep ", " (createTableDefinitionPieces m) ++ ");") := by
  refine ⟨?_, ?_, ?_, ?_, fun m => rfl⟩
  · intro ai name t nn j s
    simp [columnDefinitionEntry, defaultValueLiteral, String.append_assoc,
      String.append_empty]
    rfl
  · intro ai name t nn j n
    simp [columnDefinitionEntry, defaultValueLiteral, jsToString,
      String.append_assoc, String.append_empty]
  · intro ai name t nn j b
    cases b <;>
      simp [columnDefinitionEntry, defaultValueLiteral, jsToString,
        String.append_assoc, String.append_empty]
  · intro ai name t nn j
    simp [columnDefinitionEntry, String.append_assoc, String.append_empty]

theorem mem_keys_of_lookup {c : List (String × ModelColumn)} {a : String}
    {col : ModelColumn} (h : c.lookup a = some col) : a ∈ c.map Prod.fst := by
  induction c with
  | nil => cases h
  | cons kv tl ih =>
      rcases kv with ⟨k, v⟩
      rw [List.lookup] at h
      cases hkb : (a == k) with
      | true =>
          have hk : a = k := by simpa using hkb
          simp [hk]
      | false =>
          rw [hkb] at h
          dsimp only at h
          exact List.mem_cons_of_mem _ (ih h)

theorem countP_key_none (c : List (String × ModelColumn)) :
    (c.countP fun kv => (none : Option String) = some kv.1) = 0 := by
  rw [List.countP_eq_zero]
  intro kv hkv
  simp

theorem countP_key_zero_of_not_mem (tl : List (String × ModelColumn)) (a : String)
    (h : a ∉ tl.map Prod.fst) :
    (tl.countP fun kv => a = kv.1) = 0 := by
  rw [List.countP_eq_zero]
  intro kv hkv
  simp only [decide_eq_true_eq]
  intro heq
  exact h (by rw [heq]; exact List.mem_map_of_mem Prod.fst hkv)

theorem countP_key_one (c : List (String × ModelColumn)) (a : String)
    (hnd : (c.map Prod.fst).Nodup) (hmem : a ∈ c.map Prod.fst) :
    (c.countP fun kv => a = kv.1) = 1 := by
  induction c with
  | nil => simp at hmem
  | cons kv tl ih =>
      rw [List.map_cons, List.nodup_cons] at hnd
      rw [List.countP_cons]
      by_cases h : a = kv.1
      · have h0 : (tl.countP fun kv2 => a = kv2.1) = 0 :=
          countP_key_zero_of_not_mem tl a (by rw [h]; exact hnd.1)
        rw [h0]
        simp [h]
      · have hmem2 : a ∈ tl.map Prod.fst := by
          rw [List.map_cons] at hmem
          rcases List.mem_cons.mp hmem with h1 | h1
          · exact absurd h1 h
          · exact h1
        simp [ih hnd.2 hmem2, h]

/-- C7: for every schema accepted by the constructor (with unique column
keys, the auto-increment option being absent or a truthy string), the
rendered CREATE TABLE definition carries exactly one PRIMARY KEY clause:
with no auto-increment column, only the trailing `PRIMARY KEY (<pk list>)`
listing precisely the declared primary keys in order; with one, only the
inline ` PRIMARY KEY AUTOINCREMENT` on that single primary-key column. -/
theorem createTableDefinition_single_pk_clause (o : ModelOptions)
    (c : List (String × ModelColumn)) (m : ModelState)
    (hm : modelConstructor o c = .ok m)
    (hnd : (c.map Prod.fst).Nodup)
    (hai : o.autoIncrement ≠ some "") :
    createTableDefinition m =
      "CREATE TABLE `" ++ m.tableName ++ "` ("
        ++ joinSep ", " (createTableDefinitionPieces m) ++ ");"
    ∧ pkClauseCount m = 1
    ∧ (m.autoIncrementColumn = none →
        createTableDefinitionPieces m =
          (m.columns.map fun kv => columnDefinitionEntry none kv.1 kv.2)
            ++ ["PRIMARY KEY (" ++ joinSep ", " m.primaryKeys ++ ")"]
            ++ (m.uniqueKeys.map fun g => "UNIQUE (" ++ joinSep ", " g ++ ")"))
    ∧ (∀ a : String, m.autoIncrementColumn = some a →
        m.primaryKeys = [a]
        ∧ createTableDefinitionPieces m =
            (m.columns.map fun kv => columnDefinitionEntry (some a) kv.1 kv.2)
              ++ (m.uniqueKeys.map fun g => "UNIQUE (" ++ joinSep ", " g ++ ")")) := by
  obtain ⟨hmeq, htn, hpkne, hauto⟩ := modelConstructor_ok_inv o c m hm
  subst hmeq
  refine ⟨rfl, ?_, ?_, ?_⟩
  · dsimp only [pkClauseCount]
    cases hao : o.autoIncrement with
    | none => simp [truthyOptStr, countP_key_none]
    | some a =>
        have ha : a ≠ "" := fun h => hai (by rw [hao, h])
        obtain ⟨hpk, col, hlk, hcol⟩ := hauto a hao ha
        have hmem : a ∈ c.map Prod.fst := mem_keys_of_lookup hlk
        simp [truthyOptStr, ha, countP_key_one c a hnd hmem]
  · intro hnone
    dsimp only at hnone
    dsimp only [createTableDefinitionPieces]
    simp [hnone, truthyOptStr]
  · intro a hsome
    dsimp only at hsome
    have ha : a ≠ "" := fun h => hai (by rw [hsome, h])
    obtain ⟨hpk, col, hlk, hcol⟩ := hauto a hsome ha
    refine ⟨by dsimp only; exact hpk, ?_⟩
    dsimp only [createTableDefinitionPieces]
    simp [hsome, truthyOptStr, ha]

theorem createTableDefinition_single_pk_clause_checked :
    pkClauseCount
      { tableName := "test",
        columns := [("id", { type := .integer }), ("name", { type := .text })],
        primaryKeys := ["id"], autoIncrementColumn := some "id", uniqueKeys := [] } = 1
    ∧ createTableDefinition
      { tableName := "test",
        columns := [("id", { type := .integer }), ("name", { type := .text })],
        primaryKeys := ["id"], autoIncrementColumn := some "id", uniqueKeys := [] } =
      "CREATE TABLE `test` (id integer PRIMARY KEY AUTOINCREMENT, name text);" := by
  refine ⟨?_, by rfl⟩
  exact (createTableDefinition_single_pk_clause
    { tableName := "test", primaryKeys := .single "id", autoIncrement := some "id" }
    [("id", { type := .integer }), ("name", { type := .text })]
    { tableName := "test",
      columns := [("id", { type := .integer }), ("name", { type := .text })],
      primaryKeys := ["id"], autoIncrementColumn := some "id", uniqueKeys := [] }
    (by rfl) (by decide) (by decide)).2.1

end D1Orm
